import Mathlib

/-!
# Admin API client (`frontend/src/api.js`)

A shallow embedding of the axios-based admin client: the JavaScript values the
exported functions receive, the shared axios instance `api` with its default
headers, the request each function hands to the instance, and the result each
function returns. The network is a parameter (`Net`): it answers a request
with a response or with a transport error. The numbers of the language are a
parameter as well (`JSNumber`): the module only converts them to text and
tests them for truthiness, so every statement holds for any number type,
IEEE doubles with fractions, `NaN`, the infinities and `-0` included.
-/

namespace ApiClient

/-! ## JavaScript values -/

/-- The numbers of the language, as far as the module touches them: the values
of its two numeric literals `1` and `50`, the conversion `Number::toString`,
and `ToBoolean` (false for `0`, `-0` and `NaN`). -/
class JSNumber (N : Type) where
  one : N
  fifty : N
  toStr : N → String
  truthy : N → Bool

/-- Integers that a double holds exactly; the language prints them in plain
decimal. -/
structure SafeInt where
  val : Int
  safe : val.natAbs < 9007199254740992

instance : JSNumber SafeInt where
  one := ⟨1, by decide⟩
  fifty := ⟨50, by decide⟩
  toStr n := toString n.val
  truthy n := n.val != 0

/-- Plain JavaScript data values over the numbers `N`, as the exported
functions receive them and as they travel in JSON bodies and query
parameters. An object is its list of own properties in insertion order, its
prototype is `Object.prototype`; an array is its list of elements. -/
inductive JSValue (N : Type) where
  | undefined : JSValue N
  | null : JSValue N
  | bool (b : Bool) : JSValue N
  | num (n : N) : JSValue N
  | str (s : String) : JSValue N
  | arr (items : List (JSValue N)) : JSValue N
  | obj (fields : List (String × JSValue N)) : JSValue N

namespace JSValue

variable {N : Type} [JSNumber N]

/-- ToBoolean of the language: the test performed by `if (status)`. -/
def truthy : JSValue N → Bool
  | undefined => false
  | null => false
  | bool b => b
  | num n => JSNumber.truthy n
  | str s => s != ""
  | arr _ => true
  | obj _ => true

/-- Whether a property list has an own property called `name`. -/
def hasOwn (fields : List (String × JSValue N)) (name : String) : Bool :=
  fields.any (fun kv => kv.1 == name)

mutual
/-- ToString of the language, the conversion a template literal `${v}` applies;
`none` when the conversion throws a `TypeError`. An object converts through
its `toString` method: the inherited one gives `"[object Object]"`, while an
own data property `toString` is not callable, the fallback `valueOf` yields no
primitive either, and the conversion throws. An array converts through
`join`. -/
def toStr : JSValue N → Option String
  | undefined => some "undefined"
  | null => some "null"
  | bool true => some "true"
  | bool false => some "false"
  | num n => some (JSNumber.toStr n)
  | str s => some s
  | arr items => joinItems items
  | obj fields => if hasOwn fields "toString" then none else some "[object Object]"
/-- The text of an array, `Array.prototype.join` with separator `","`: `null`
and `undefined` elements contribute the empty string, every other element its
ToString; `none` when converting an element throws. -/
def joinItems : List (JSValue N) → Option String
  | [] => some ""
  | [x] => itemStr x
  | x :: y :: rest =>
    match itemStr x, joinItems (y :: rest) with
    | some a, some b => some (a ++ "," ++ b)
    | _, _ => none
/-- The text of one array element inside `join`. -/
def itemStr : JSValue N → Option String
  | undefined => some ""
  | null => some ""
  | bool true => some "true"
  | bool false => some "false"
  | num n => some (JSNumber.toStr n)
  | str s => some s
  | arr items => joinItems items
  | obj fields => if hasOwn fields "toString" then none else some "[object Object]"
end

/-- Default parameter value: `f(x = d)` binds `d` exactly when the argument is
`undefined` (which includes an omitted argument). -/
def orDefault (v d : JSValue N) : JSValue N :=
  match v with
  | undefined => d
  | other => other

/-- Property read `o[name]` on an object's own properties. -/
def getProp (o : JSValue N) (name : String) : Option (JSValue N) :=
  match o with
  | obj fields => (fields.find? (fun kv => kv.1 == name)).map Prod.snd
  | _ => none

/-- Whether the object has the own property `name`. -/
def hasProp (o : JSValue N) (name : String) : Bool :=
  (o.getProp name).isSome

/-- The documented type of the `status` filter: a string, or not provided
(`undefined` when omitted, `null` when passed as the default). -/
def isOptionalString : JSValue N → Bool
  | undefined => true
  | null => true
  | str _ => true
  | _ => false

/-- A status that was supplied, is not `null`, and is not the empty string. -/
def isNonNullNonEmpty : JSValue N → Bool
  | undefined => false
  | null => false
  | str s => s != ""
  | _ => true

end JSValue

/-! ## The axios instance and the network -/

/-- HTTP verbs used by the client. -/
inductive Method where
  | GET | POST | PUT | DELETE
  deriving DecidableEq, Repr

/-- A header map: names with their values, names unique. -/
abbrev Headers := List (String × String)

/-- Assignment `headers[name] = value`: replaces the value of an existing
property, adds the property otherwise. -/
def setHeader : Headers → String → String → Headers
  | [], name, value => [(name, value)]
  | (k, v) :: rest, name, value =>
    if k = name then (name, value) :: rest else (k, v) :: setHeader rest name value

/-- The headers a request is sent with: the instance's `common` defaults,
overridden by the headers configured on the instance itself. -/
def mergeHeaders (common own : Headers) : Headers :=
  own.foldl (fun acc kv => setHeader acc kv.1 kv.2) common

/-- The configuration held by an axios instance (`api.defaults`): the base URL,
the headers given to `axios.create`, and `defaults.headers.common`. -/
structure AxiosInstance where
  baseURL : String
  headers : Headers
  common : Headers

/-- A request as handed to the network: method, path, body (`undefined` when
the call passes none), query parameters (`undefined` when the call passes no
`params`), and the base URL and headers of the instance at the time of the
call. -/
structure Request (N : Type) where
  method : Method
  url : String
  data : JSValue N
  params : JSValue N
  baseURL : String
  headers : Headers

/-- The value of a header of the request, if it is sent. -/
def Request.header {N : Type} (r : Request N) (name : String) : Option String :=
  r.headers.lookup name

/-- A decoded HTTP response. -/
structure Response (N : Type) where
  status : Nat
  data : JSValue N

/-- What a rejected axios call rejects with: a network-layer failure, a
response with a failing status, or a body that does not decode. -/
inductive TransportError (N : Type) where
  | network (message : String) : TransportError N
  | httpStatus (response : Response N) : TransportError N
  | decode (message : String) : TransportError N

/-- The status code an error exposes (`error.response.status`). -/
def TransportError.status {N : Type} : TransportError N → Option Nat
  | .httpStatus response => some response.status
  | _ => none

/-- What a call of the module can throw or reject with: the `TypeError` of a
failed conversion to text, raised locally, or the error of the transport. -/
inductive JSError (N : Type) where
  | typeError : JSError N
  | transport (e : TransportError N) : JSError N

/-- The network and the backend behind it: given the requests dispatched so far
and the next request, it resolves with a response or rejects with an error. -/
abbrev Net (N : Type) := List (Request N) → Request N → Except (TransportError N) (Response N)

/-- The module's state: the shared instance `api` and the requests dispatched
so far, oldest first. -/
structure World (N : Type) where
  api : AxiosInstance
  log : List (Request N)

/-- A computation of the module: it runs against a network and the module
state, and settles fulfilled (`ok`) or rejected (`error`). -/
def Async (N : Type) (α : Type) : Type := Net N → World N → Except (JSError N) α × World N

/-- A computation that fulfils at once. -/
def Async.pure {N α : Type} (a : α) : Async N α := fun _ w => (.ok a, w)

/-- Sequencing, with `await` or by evaluation order: a throw or rejection of
the first computation ends the whole function with the same error, and what
follows does not run. -/
def Async.bind {N α β : Type} (m : Async N α) (f : α → Async N β) : Async N β :=
  fun net w =>
    match m net w with
    | (.ok a, w1) => f a net w1
    | (.error e, w1) => (.error e, w1)

instance {N : Type} : Monad (Async N) where
  pure := Async.pure
  bind := Async.bind

section Module

variable {N : Type} [JSNumber N]

/-- The request an instance sends for given arguments: the arguments, with the
instance's base URL and merged headers as they are at that moment. -/
def AxiosInstance.build (a : AxiosInstance) (method : Method) (url : String)
    (data params : JSValue N) : Request N :=
  { method := method, url := url, data := data, params := params,
    baseURL := a.baseURL, headers := mergeHeaders a.common a.headers }

/-- One call on the instance, `api.request({method, url, data, params})`: the
request is built from the arguments and the instance's current defaults,
dispatched once, and the network's answer is the outcome. -/
def AxiosInstance.request (method : Method) (url : String) (data params : JSValue N) :
    Async N (Response N) :=
  fun net w =>
    let r := w.api.build method url data params
    (match net w.log r with
      | .ok response => .ok response
      | .error e => .error (.transport e),
     { w with log := w.log ++ [r] })

/-- The call `api.get(url, { params })`, and `api.get(url)` with `params`
`undefined`. -/
def api_get (url : String) (params : JSValue N) : Async N (Response N) :=
  AxiosInstance.request .GET url .undefined params

/-- The call `api.delete(url)`. -/
def api_delete (url : String) : Async N (Response N) :=
  AxiosInstance.request .DELETE url .undefined .undefined

/-- The call `api.post(url, data)`. -/
def api_post (url : String) (data : JSValue N) : Async N (Response N) :=
  AxiosInstance.request .POST url data .undefined

/-- The call `api.put(url, data, { params })`, and `api.put(url, data)` with
`params` `undefined`. -/
def api_put (url : String) (data params : JSValue N) : Async N (Response N) :=
  AxiosInstance.request .PUT url data params

/-- A template literal with one substitution, written before${v}after in the
source: the value is converted by ToString and spliced between the two
texts; a failing conversion throws `TypeError` and nothing else happens. -/
def template (before : String) (v : JSValue N) (after : String) : Async N String :=
  fun _ w =>
    match v.toStr with
    | some s => (.ok (before ++ s ++ after), w)
    | none => (.error .typeError, w)

/-- The assignment `api.defaults.headers.common[name] = value`. -/
def setCommonHeader (name value : String) : Async N Unit :=
  fun _ w => (.ok (), { w with api := { w.api with
    common := setHeader w.api.common name value } })

/-! ## The module -/

/-- The constant `API_BASE = import.meta.env.PROD ? '' : ''`. -/
def API_BASE (prod : Bool) : String := if prod then "" else ""

/-- The instance `api = axios.create({ baseURL: API_BASE, headers: {...} })`;
`lib` is the library's own `common` default headers. -/
def api (lib : Headers) (prod : Bool) : AxiosInstance :=
  { baseURL := API_BASE prod
    headers := [("Content-Type", "application/json")]
    common := lib }

/-- The module state after loading: the fresh instance, nothing dispatched. -/
def World.init (lib : Headers) (prod : Bool) : World N :=
  { api := ApiClient.api lib prod, log := [] }

def setAuthToken (token : JSValue N) : Async N (JSValue N) := do
  let value ← template "Bearer " token ""
  setCommonHeader "Authorization" value
  return .undefined

def getStats : Async N (JSValue N) := do
  let response ← api_get "/admin/stats" .undefined
  return response.data

def getKeys (status page pageSize : JSValue N) : Async N (JSValue N) := do
  let status := status.orDefault .null
  let page := page.orDefault (.num JSNumber.one)
  let pageSize := pageSize.orDefault (.num JSNumber.fifty)
  let params := [("page", page), ("page_size", pageSize)]
  let params := if status.truthy then params ++ [("status", status)] else params
  let response ← api_get "/admin/keys" (.obj params)
  return response.data

def addKey (key balance : JSValue N) : Async N (JSValue N) := do
  let response ← api_post "/admin/keys" (.obj [("key", key), ("balance", balance)])
  return response.data

def deleteKey (keyId : JSValue N) : Async N (JSValue N) := do
  let url ← template "/admin/keys/" keyId ""
  let response ← api_delete url
  return response.data

def importKeys (keys : JSValue N) : Async N (JSValue N) := do
  let response ← api_post "/admin/keys/import" (.obj [("keys", keys)])
  return response.data

def getPricing : Async N (JSValue N) := do
  let response ← api_get "/admin/pricing" .undefined
  return response.data

def addPricing (modelPattern pricePerRequest description : JSValue N) :
    Async N (JSValue N) := do
  let response ← api_post "/admin/pricing"
    (.obj [("model_pattern", modelPattern), ("price_per_request", pricePerRequest),
           ("description", description)])
  return response.data

def updatePricing (pricingId pricePerRequest description : JSValue N) :
    Async N (JSValue N) := do
  let url ← template "/admin/pricing/" pricingId ""
  let response ← api_put url
    (.obj [("model_pattern", .str ""), ("price_per_request", pricePerRequest),
           ("description", description)]) .undefined
  return response.data

def deletePricing (pricingId : JSValue N) : Async N (JSValue N) := do
  let url ← template "/admin/pricing/" pricingId ""
  let response ← api_delete url
  return response.data

def checkModelPrice (model : JSValue N) : Async N (JSValue N) := do
  let response ← api_get "/admin/pricing/check" (.obj [("model", model)])
  return response.data

def getUpstreamModels : Async N (JSValue N) := do
  let response ← api_get "/admin/models" .undefined
  return response.data

def deleteInvalidKeys : Async N (JSValue N) := do
  let response ← api_delete "/admin/keys/invalid/batch"
  return response.data

def getTokens : Async N (JSValue N) := do
  let response ← api_get "/admin/tokens" .undefined
  return response.data

def createToken (name : JSValue N) : Async N (JSValue N) := do
  let response ← api_post "/admin/tokens" (.obj [("name", name)])
  return response.data

def toggleToken (tokenId enabled : JSValue N) : Async N (JSValue N) := do
  let url ← template "/admin/tokens/" tokenId "/toggle"
  let response ← api_put url .null (.obj [("enabled", enabled)])
  return response.data

def deleteToken (tokenId : JSValue N) : Async N (JSValue N) := do
  let url ← template "/admin/tokens/" tokenId ""
  let response ← api_delete url
  return response.data

end Module

/-! ## The exported interface as data -/

/-- The sixteen exported functions that talk to the backend, with their
arguments. -/
inductive Op (N : Type) where
  | getStats : Op N
  | getKeys (status page pageSize : JSValue N) : Op N
  | addKey (key balance : JSValue N) : Op N
  | deleteKey (keyId : JSValue N) : Op N
  | importKeys (keys : JSValue N) : Op N
  | getPricing : Op N
  | addPricing (modelPattern pricePerRequest description : JSValue N) : Op N
  | updatePricing (pricingId pricePerRequest description : JSValue N) : Op N
  | deletePricing (pricingId : JSValue N) : Op N
  | checkModelPrice (model : JSValue N) : Op N
  | getUpstreamModels : Op N
  | deleteInvalidKeys : Op N
  | getTokens : Op N
  | createToken (name : JSValue N) : Op N
  | toggleToken (tokenId enabled : JSValue N) : Op N
  | deleteToken (tokenId : JSValue N) : Op N

/-- A call a consumer of the module can make. -/
inductive Call (N : Type) where
  | setAuthToken (token : JSValue N) : Call N
  | op (o : Op N) : Call N

section Interface

variable {N : Type} [JSNumber N]

/-- Running an exported function on its arguments. -/
def Op.run : Op N → Async N (JSValue N)
  | .getStats => ApiClient.getStats
  | .getKeys status page pageSize => ApiClient.getKeys status page pageSize
  | .addKey key balance => ApiClient.addKey key balance
  | .deleteKey keyId => ApiClient.deleteKey keyId
  | .importKeys keys => ApiClient.importKeys keys
  | .getPricing => ApiClient.getPricing
  | .addPricing modelPattern pricePerRequest description =>
    ApiClient.addPricing modelPattern pricePerRequest description
  | .updatePricing pricingId pricePerRequest description =>
    ApiClient.updatePricing pricingId pricePerRequest description
  | .deletePricing pricingId => ApiClient.deletePricing pricingId
  | .checkModelPrice model => ApiClient.checkModelPrice model
  | .getUpstreamModels => ApiClient.getUpstreamModels
  | .deleteInvalidKeys => ApiClient.deleteInvalidKeys
  | .getTokens => ApiClient.getTokens
  | .createToken name => ApiClient.createToken name
  | .toggleToken tokenId enabled => ApiClient.toggleToken tokenId enabled
  | .deleteToken tokenId => ApiClient.deleteToken tokenId

/-- The argument a function splices into its path, for the five functions
whose path is a template literal. -/
def Op.pathArg : Op N → Option (JSValue N)
  | .deleteKey keyId => some keyId
  | .updatePricing pricingId _ _ => some pricingId
  | .deletePricing pricingId => some pricingId
  | .toggleToken tokenId _ => some tokenId
  | .deleteToken tokenId => some tokenId
  | _ => none

/-- Whether the identifier a function splices into its path, if it has one,
has a textual form. -/
def Op.converts (o : Op N) : Bool :=
  match o.pathArg with
  | some v => v.toStr.isSome
  | none => true

/-- Running one call. -/
def Call.run : Call N → Async N (JSValue N)
  | .setAuthToken token => ApiClient.setAuthToken token
  | .op o => o.run

/-- The module state after a consumer made the calls one after the other
(whether or not each settled fulfilled). -/
def runAll (net : Net N) : List (Call N) → World N → World N
  | [], w => w
  | c :: cs, w => runAll net cs (c.run net w).2

/-- The settled outcome of running a computation. -/
def outcome {α : Type} (m : Async N α) (net : Net N) (w : World N) :
    Except (JSError N) α :=
  (m net w).1

/-- The requests a computation dispatched while running, oldest first. -/
def sent {α : Type} (m : Async N α) (net : Net N) (w : World N) : List (Request N) :=
  (m net w).2.log.drop w.log.length

/-- The one-request round trip of a backend function: build the request on the
current instance, dispatch it, hand back the decoded body or the transport's
error. -/
def roundTrip (method : Method) (url : String) (data params : JSValue N) :
    Net N → World N → Except (JSError N) (JSValue N) × World N :=
  fun net w =>
    let r := w.api.build method url data params
    (match net w.log r with
      | .ok response => .ok response.data
      | .error e => .error (.transport e),
     { w with log := w.log ++ [r] })

/-- The query object `getKeys` builds: `page` and `page_size` from the defaulted
arguments, then `status` when the defaulted status is truthy. -/
def getKeysParams (status page pageSize : JSValue N) : JSValue N :=
  .obj (if (status.orDefault .null).truthy
    then [("page", page.orDefault (.num JSNumber.one)),
          ("page_size", pageSize.orDefault (.num JSNumber.fifty))]
      ++ [("status", status.orDefault .null)]
    else [("page", page.orDefault (.num JSNumber.one)),
          ("page_size", pageSize.orDefault (.num JSNumber.fifty))])

/-- The method and path of each request in a list. -/
def methodsAndPaths (rs : List (Request N)) : List (Method × String) :=
  rs.map (fun r => (r.method, r.url))

/-- The bodies of the requests in a list. -/
def bodies (rs : List (Request N)) : List (JSValue N) :=
  rs.map Request.data

/-- An object whose own property `toString` is a string, as `JSON.parse`
yields for the text `{"toString": "x"}`: it has no textual form. -/
def unprintable : JSValue SafeInt := .obj [("toString", .str "x")]

/-- A network that answers every request with status 200 and body `null`. -/
def alwaysOk : Net SafeInt := fun _ _ => .ok ⟨200, .null⟩

end Interface

/-! ## Basic lemmas -/

section Lemmas

set_option linter.unusedSectionVars false

variable {N : Type} [JSNumber N]

theorem await_data (method : Method) (url : String) (data params : JSValue N)
    (net : Net N) (w : World N) :
    (AxiosInstance.request method url data params >>= fun response =>
      (pure response.data : Async N (JSValue N))) net w
      = roundTrip method url data params net w := by
  show Async.bind _ _ net w = _
  simp only [Async.bind, AxiosInstance.request, roundTrip]
  cases net w.log (w.api.build method url data params) <;> rfl

theorem getStats_eq (net : Net N) (w : World N) :
    getStats net w = roundTrip .GET "/admin/stats" .undefined .undefined net w :=
  await_data _ _ _ _ net w

theorem deleteKey_eq (keyId : JSValue N) (s : String) (h : keyId.toStr = some s)
    (net : Net N) (w : World N) :
    deleteKey keyId net w
      = roundTrip .DELETE ("/admin/keys/" ++ s) .undefined .undefined net w := by
  show Async.bind (template "/admin/keys/" keyId "") _ net w = _
  simp only [Async.bind, template, h, String.append_empty]
  exact await_data _ _ _ _ net w

theorem deleteKey_throws (keyId : JSValue N) (h : keyId.toStr = none)
    (net : Net N) (w : World N) :
    deleteKey keyId net w = (.error .typeError, w) := by
  show Async.bind (template "/admin/keys/" keyId "") _ net w = _
  simp only [Async.bind, template, h]

theorem updatePricing_eq (pricingId pricePerRequest description : JSValue N) (s : String) (h : pricingId.toStr = some s)
    (net : Net N) (w : World N) :
    updatePricing pricingId pricePerRequest description net w
      = roundTrip .PUT ("/admin/pricing/" ++ s) (.obj [("model_pattern", .str ""), ("price_per_request", pricePerRequest),
                 ("description", description)]) .undefined net w := by
  show Async.bind (template "/admin/pricing/" pricingId "") _ net w = _
  simp only [Async.bind, template, h, String.append_empty]
  exact await_data _ _ _ _ net w

theorem updatePricing_throws (pricingId pricePerRequest description : JSValue N) (h : pricingId.toStr = none)
    (net : Net N) (w : World N) :
    updatePricing pricingId pricePerRequest description net w = (.error .typeError, w) := by
  show Async.bind (template "/admin/pricing/" pricingId "") _ net w = _
  simp only [Async.bind, template, h]

theorem deletePricing_eq (pricingId : JSValue N) (s : String) (h : pricingId.toStr = some s)
    (net : Net N) (w : World N) :
    deletePricing pricingId net w
      = roundTrip .DELETE ("/admin/pricing/" ++ s) .undefined .undefined net w := by
  show Async.bind (template "/admin/pricing/" pricingId "") _ net w = _
  simp only [Async.bind, template, h, String.append_empty]
  exact await_data _ _ _ _ net w

theorem deletePricing_throws (pricingId : JSValue N) (h : pricingId.toStr = none)
    (net : Net N) (w : World N) :
    deletePricing pricingId net w = (.error .typeError, w) := by
  show Async.bind (template "/admin/pricing/" pricingId "") _ net w = _
  simp only [Async.bind, template, h]

theorem toggleToken_eq (tokenId enabled : JSValue N) (s : String) (h : tokenId.toStr = some s)
    (net : Net N) (w : World N) :
    toggleToken tokenId enabled net w
      = roundTrip .PUT ("/admin/tokens/" ++ s ++ "/toggle") .null (.obj [("enabled", enabled)]) net w := by
  show Async.bind (template "/admin/tokens/" tokenId "/toggle") _ net w = _
  simp only [Async.bind, template, h]
  exact await_data _ _ _ _ net w

theorem toggleToken_throws (tokenId enabled : JSValue N) (h : tokenId.toStr = none)
    (net : Net N) (w : World N) :
    toggleToken tokenId enabled net w = (.error .typeError, w) := by
  show Async.bind (template "/admin/tokens/" tokenId "/toggle") _ net w = _
  simp only [Async.bind, template, h]

theorem deleteToken_eq (tokenId : JSValue N) (s : String) (h : tokenId.toStr = some s)
    (net : Net N) (w : World N) :
    deleteToken tokenId net w
      = roundTrip .DELETE ("/admin/tokens/" ++ s) .undefined .undefined net w := by
  show Async.bind (template "/admin/tokens/" tokenId "") _ net w = _
  simp only [Async.bind, template, h, String.append_empty]
  exact await_data _ _ _ _ net w

theorem deleteToken_throws (tokenId : JSValue N) (h : tokenId.toStr = none)
    (net : Net N) (w : World N) :
    deleteToken tokenId net w = (.error .typeError, w) := by
  show Async.bind (template "/admin/tokens/" tokenId "") _ net w = _
  simp only [Async.bind, template, h]

theorem getKeys_eq (status page pageSize : JSValue N) (net : Net N) (w : World N) :
    getKeys status page pageSize net w
      = roundTrip .GET "/admin/keys" .undefined (getKeysParams status page pageSize) net w :=
  await_data _ _ _ _ net w

theorem addKey_eq (key balance : JSValue N) (net : Net N) (w : World N) :
    addKey key balance net w
      = roundTrip .POST "/admin/keys" (.obj [("key", key), ("balance", balance)])
          .undefined net w :=
  await_data _ _ _ _ net w

theorem importKeys_eq (keys : JSValue N) (net : Net N) (w : World N) :
    importKeys keys net w
      = roundTrip .POST "/admin/keys/import" (.obj [("keys", keys)]) .undefined net w :=
  await_data _ _ _ _ net w

theorem getPricing_eq (net : Net N) (w : World N) :
    getPricing net w = roundTrip .GET "/admin/pricing" .undefined .undefined net w :=
  await_data _ _ _ _ net w

theorem addPricing_eq (modelPattern pricePerRequest description : JSValue N)
    (net : Net N) (w : World N) :
    addPricing modelPattern pricePerRequest description net w
      = roundTrip .POST "/admin/pricing"
          (.obj [("model_pattern", modelPattern), ("price_per_request", pricePerRequest),
                 ("description", description)]) .undefined net w :=
  await_data _ _ _ _ net w

theorem checkModelPrice_eq (model : JSValue N) (net : Net N) (w : World N) :
    checkModelPrice model net w
      = roundTrip .GET "/admin/pricing/check" .undefined (.obj [("model", model)]) net w :=
  await_data _ _ _ _ net w

theorem getUpstreamModels_eq (net : Net N) (w : World N) :
    getUpstreamModels net w = roundTrip .GET "/admin/models" .undefined .undefined net w :=
  await_data _ _ _ _ net w

theorem deleteInvalidKeys_eq (net : Net N) (w : World N) :
    deleteInvalidKeys net w
      = roundTrip .DELETE "/admin/keys/invalid/batch" .undefined .undefined net w :=
  await_data _ _ _ _ net w

theorem getTokens_eq (net : Net N) (w : World N) :
    getTokens net w = roundTrip .GET "/admin/tokens" .undefined .undefined net w :=
  await_data _ _ _ _ net w

theorem createToken_eq (name : JSValue N) (net : Net N) (w : World N) :
    createToken name net w
      = roundTrip .POST "/admin/tokens" (.obj [("name", name)]) .undefined net w :=
  await_data _ _ _ _ net w

theorem setAuthToken_eq (token : JSValue N) (s : String) (h : token.toStr = some s)
    (net : Net N) (w : World N) :
    setAuthToken token net w
      = (.ok .undefined, { w with api := { w.api with
          common := setHeader w.api.common "Authorization" ("Bearer " ++ s) } }) := by
  show Async.bind (template "Bearer " token "") _ net w = _
  simp only [Async.bind, template, h, String.append_empty]
  rfl

theorem setAuthToken_throws (token : JSValue N) (h : token.toStr = none)
    (net : Net N) (w : World N) :
    setAuthToken token net w = (.error .typeError, w) := by
  show Async.bind (template "Bearer " token "") _ net w = _
  simp only [Async.bind, template, h]

/-- A backend function whose identifier (if it has one) has a textual form is
one round trip, for some method, path, body and query determined by the
function and its arguments alone. -/
theorem Op.run_eq (o : Op N) (h : o.converts = true) :
    ∃ method url data params, ∀ (net : Net N) (w : World N),
      o.run net w = roundTrip method url data params net w := by
  cases o
  case getStats => exact ⟨_, _, _, _, getStats_eq⟩
  case getKeys a b c => exact ⟨_, _, _, _, getKeys_eq a b c⟩
  case addKey a b => exact ⟨_, _, _, _, addKey_eq a b⟩
  case deleteKey a =>
    obtain ⟨s, hs⟩ := Option.isSome_iff_exists.mp h
    exact ⟨_, _, _, _, deleteKey_eq a s hs⟩
  case importKeys a => exact ⟨_, _, _, _, importKeys_eq a⟩
  case getPricing => exact ⟨_, _, _, _, getPricing_eq⟩
  case addPricing a b c => exact ⟨_, _, _, _, addPricing_eq a b c⟩
  case updatePricing a b c =>
    obtain ⟨s, hs⟩ := Option.isSome_iff_exists.mp h
    exact ⟨_, _, _, _, updatePricing_eq a b c s hs⟩
  case deletePricing a =>
    obtain ⟨s, hs⟩ := Option.isSome_iff_exists.mp h
    exact ⟨_, _, _, _, deletePricing_eq a s hs⟩
  case checkModelPrice a => exact ⟨_, _, _, _, checkModelPrice_eq a⟩
  case getUpstreamModels => exact ⟨_, _, _, _, getUpstreamModels_eq⟩
  case deleteInvalidKeys => exact ⟨_, _, _, _, deleteInvalidKeys_eq⟩
  case getTokens => exact ⟨_, _, _, _, getTokens_eq⟩
  case createToken a => exact ⟨_, _, _, _, createToken_eq a⟩
  case toggleToken a b =>
    obtain ⟨s, hs⟩ := Option.isSome_iff_exists.mp h
    exact ⟨_, _, _, _, toggleToken_eq a b s hs⟩
  case deleteToken a =>
    obtain ⟨s, hs⟩ := Option.isSome_iff_exists.mp h
    exact ⟨_, _, _, _, deleteToken_eq a s hs⟩

/-- A backend function whose identifier has no textual form throws the
`TypeError` of the conversion before it reaches the instance: the state is
untouched and nothing is dispatched. -/
theorem Op.run_throws (o : Op N) (h : o.converts = false) (net : Net N) (w : World N) :
    o.run net w = (.error .typeError, w) := by
  cases o
  case deleteKey a =>
    exact deleteKey_throws a (Option.not_isSome_iff_eq_none.mp (by simpa [Op.converts, Op.pathArg] using h)) net w
  case updatePricing a b c =>
    exact updatePricing_throws a b c (Option.not_isSome_iff_eq_none.mp (by simpa [Op.converts, Op.pathArg] using h)) net w
  case deletePricing a =>
    exact deletePricing_throws a (Option.not_isSome_iff_eq_none.mp (by simpa [Op.converts, Op.pathArg] using h)) net w
  case toggleToken a b =>
    exact toggleToken_throws a b (Option.not_isSome_iff_eq_none.mp (by simpa [Op.converts, Op.pathArg] using h)) net w
  case deleteToken a =>
    exact deleteToken_throws a (Option.not_isSome_iff_eq_none.mp (by simpa [Op.converts, Op.pathArg] using h)) net w
  all_goals exact absurd h (by simp [Op.converts, Op.pathArg])

theorem roundTrip_log (method : Method) (url : String) (data params : JSValue N)
    (net : Net N) (w : World N) :
    (roundTrip method url data params net w).2.log
      = w.log ++ [w.api.build method url data params] := rfl

theorem roundTrip_api (method : Method) (url : String) (data params : JSValue N)
    (net : Net N) (w : World N) :
    (roundTrip method url data params net w).2.api = w.api := rfl

theorem roundTrip_outcome (method : Method) (url : String) (data params : JSValue N)
    (net : Net N) (w : World N) :
    (roundTrip method url data params net w).1
      = match net w.log (w.api.build method url data params) with
        | .ok response => .ok response.data
        | .error e => .error (.transport e) := rfl

theorem sent_of_eq {m : Async N (JSValue N)} {method : Method} {url : String}
    {data params : JSValue N} {net : Net N} {w : World N}
    (h : m net w = roundTrip method url data params net w) :
    sent m net w = [w.api.build method url data params] := by
  simp [sent, h, roundTrip_log]

theorem sent_of_throws {m : Async N (JSValue N)} {e : JSError N} {net : Net N} {w : World N}
    (h : m net w = (.error e, w)) : sent m net w = [] := by
  simp [sent, h]

theorem toStr_str (s : String) : (JSValue.str s : JSValue N).toStr = some s := by
  simp [JSValue.toStr]

theorem toStr_num (n : N) : (JSValue.num n).toStr = some (JSNumber.toStr n) := by
  simp [JSValue.toStr]

theorem lookup_cons_eq (k v other : String) (rest : Headers) :
    List.lookup other ((k, v) :: rest)
      = if other = k then some v else List.lookup other rest := by
  by_cases h : other = k
  · have hb : (other == k) = true := by simpa using h
    simp [List.lookup, hb, h]
  · have hb : (other == k) = false := by simpa using h
    simp [List.lookup, hb, h]

theorem lookup_setHeader (hs : Headers) (name value other : String) :
    (setHeader hs name value).lookup other
      = if other = name then some value else hs.lookup other := by
  induction hs with
  | nil => simp [setHeader, lookup_cons_eq]
  | cons kv rest ih =>
    obtain ⟨k, v⟩ := kv
    by_cases hk : k = name
    · subst hk
      by_cases h : other = k <;> simp [setHeader, lookup_cons_eq, h]
    · by_cases h : other = k
      · subst h
        simp [setHeader, hk, lookup_cons_eq]
      · simp [setHeader, hk, h, lookup_cons_eq, ih]

/-- For any value at all, `getKeys` sends `status` exactly when the value is
truthy (a number `0`, `NaN` or `false` is dropped like `null` and `""`). -/
theorem getKeysParams_status_truthy (status page pageSize : JSValue N) :
    (getKeysParams status page pageSize).hasProp "status" = status.truthy := by
  cases status <;> simp [getKeysParams, JSValue.orDefault, JSValue.truthy, JSValue.hasProp,
    JSValue.getProp, List.find?]
  all_goals split <;> simp_all [List.find?]

/-- A backend function either dispatches one request built on the current
instance, or throws before dispatching and leaves the state as it was. -/
theorem Op.run_log (o : Op N) (net : Net N) (w : World N) :
    (∃ method url data params,
      o.converts = true ∧
      (o.run net w).2.log = w.log ++ [w.api.build method url data params]) ∨
    (o.converts = false ∧ (o.run net w).2 = w) := by
  cases h : o.converts
  · exact Or.inr ⟨rfl, by rw [o.run_throws h]⟩
  · obtain ⟨method, url, data, params, he⟩ := o.run_eq h
    exact Or.inl ⟨method, url, data, params, rfl, by rw [he]; rfl⟩

theorem Op.run_api (o : Op N) (net : Net N) (w : World N) : (o.run net w).2.api = w.api := by
  cases h : o.converts
  · rw [o.run_throws h]
  · obtain ⟨method, url, data, params, he⟩ := o.run_eq h
    rw [he]; rfl

theorem setAuthToken_headers (token : JSValue N) (net : Net N) (w : World N) :
    (setAuthToken token net w).2.api.headers = w.api.headers ∧
    (setAuthToken token net w).2.api.baseURL = w.api.baseURL ∧
    (setAuthToken token net w).2.log = w.log := by
  cases h : token.toStr with
  | none => rw [setAuthToken_throws token h]; exact ⟨rfl, rfl, rfl⟩
  | some s => rw [setAuthToken_eq token s h]; exact ⟨rfl, rfl, rfl⟩

theorem Call.run_headers (c : Call N) (net : Net N) (w : World N) :
    (c.run net w).2.api.headers = w.api.headers ∧
    (c.run net w).2.api.baseURL = w.api.baseURL := by
  cases c with
  | setAuthToken token =>
    exact ⟨(setAuthToken_headers token net w).1, (setAuthToken_headers token net w).2.1⟩
  | op o => simp [Call.run, Op.run_api]

theorem runAll_append (net : Net N) (cs ds : List (Call N)) (w : World N) :
    runAll net (cs ++ ds) w = runAll net ds (runAll net cs w) := by
  induction cs generalizing w with
  | nil => rfl
  | cons c cs ih => simp [runAll, ih]

theorem runAll_headers (net : Net N) (cs : List (Call N)) (w : World N) :
    (runAll net cs w).api.headers = w.api.headers := by
  induction cs generalizing w with
  | nil => rfl
  | cons c cs ih => simp [runAll, ih, (Call.run_headers c net w).1]

/-- A run of backend functions only: the instance is untouched, and the log
grows by at most one request per function (exactly one each when every
identifier has a textual form), each built on that same instance. -/
theorem runAll_ops (net : Net N) (os : List (Op N)) (w : World N) :
    (runAll net (os.map Call.op) w).api = w.api ∧
    ∃ extra, (runAll net (os.map Call.op) w).log = w.log ++ extra ∧
      extra.length ≤ os.length ∧
      ((∀ o ∈ os, o.converts = true) → extra.length = os.length) ∧
      ∀ r ∈ extra, r.headers = mergeHeaders w.api.common w.api.headers := by
  induction os generalizing w with
  | nil => exact ⟨rfl, [], by simp [runAll], by simp, by simp, by simp⟩
  | cons o os ih =>
    have hapi := o.run_api net w
    obtain ⟨h1, extra, h2, h3, h4, h5⟩ := ih (o.run net w).2
    rcases o.run_log net w with ⟨method, url, data, params, hconv, hlog⟩ | ⟨hconv, hsame⟩
    · refine ⟨?_, w.api.build method url data params :: extra, ?_, ?_, ?_, ?_⟩
      · simpa [runAll, Call.run, hapi] using h1
      · simp only [List.map_cons, runAll, Call.run]
        rw [h2, hlog]; simp
      · simp only [List.length_cons]; omega
      · intro hall
        have := h4 (fun o ho => hall o (List.mem_cons_of_mem _ ho))
        simp [this]
      · intro r hr
        rcases List.mem_cons.mp hr with h | h
        · rw [h]; rfl
        · rw [← hapi]; exact h5 r h
    · refine ⟨?_, extra, ?_, ?_, ?_, ?_⟩
      · simpa [runAll, Call.run, hapi] using h1
      · simp only [List.map_cons, runAll, Call.run]
        rw [h2, hsame]
      · simp only [List.length_cons]; omega
      · intro hall
        have := hall o (List.mem_cons_self _ _)
        rw [hconv] at this
        exact absurd this (by simp)
      · intro r hr
        rw [← hapi]; exact h5 r hr

theorem authorization_of_merge (common : Headers) (value : String) :
    (mergeHeaders (setHeader common "Authorization" value)
      [("Content-Type", "application/json")]).lookup "Authorization" = some value := by
  simp [mergeHeaders, lookup_setHeader]

end Lemmas

/-! ## Request shapes -/

section Shapes

variable {N : Type} [JSNumber N]

/-- C1: the query parameters `getKeys(status, page, pageSize)` attaches to its
single `GET /admin/keys` always hold `page` and `page_size` (the arguments, or 1
and 50 where the argument is omitted), and hold `status`, equal to the supplied
one, exactly when a non-null, non-empty status string was supplied; an omitted
status leaves it absent. -/
theorem getKeys_query (status page pageSize : JSValue N) (net : Net N) (w : World N)
    (hs : status.isOptionalString = true) :
    ∃ q, sent (getKeys status page pageSize) net w
          = [w.api.build .GET "/admin/keys" .undefined q] ∧
      q.getProp "page" = some (page.orDefault (.num JSNumber.one)) ∧
      q.getProp "page_size" = some (pageSize.orDefault (.num JSNumber.fifty)) ∧
      (page = .undefined → q.getProp "page" = some (.num JSNumber.one)) ∧
      (page ≠ .undefined → q.getProp "page" = some page) ∧
      (pageSize = .undefined → q.getProp "page_size" = some (.num JSNumber.fifty)) ∧
      (pageSize ≠ .undefined → q.getProp "page_size" = some pageSize) ∧
      (q.hasProp "status" = true ↔ status.isNonNullNonEmpty = true) ∧
      (status.isNonNullNonEmpty = true → q.getProp "status" = some status) ∧
      (status = .undefined → q.getProp "status" = none) := by
  refine ⟨getKeysParams status page pageSize, sent_of_eq (getKeys_eq _ _ _ net w), ?_⟩
  have hpage : (getKeysParams status page pageSize).getProp "page"
      = some (page.orDefault (.num JSNumber.one)) := by
    unfold getKeysParams; split <;> simp [JSValue.getProp, List.find?]
  have hsize : (getKeysParams status page pageSize).getProp "page_size"
      = some (pageSize.orDefault (.num JSNumber.fifty)) := by
    unfold getKeysParams; split <;> simp [JSValue.getProp, List.find?]
  refine ⟨hpage, hsize, ?_, ?_, ?_, ?_, ?_, ?_, ?_⟩
  · intro h; rw [hpage, h]; rfl
  · intro h; rw [hpage]; cases page <;> first | rfl | exact absurd rfl h
  · intro h; rw [hsize, h]; rfl
  · intro h; rw [hsize]; cases pageSize <;> first | rfl | exact absurd rfl h
  · rw [getKeysParams_status_truthy]
    cases status <;> simp_all [JSValue.truthy, JSValue.isNonNullNonEmpty,
      JSValue.isOptionalString]
  · intro h
    cases status <;> simp_all [JSValue.truthy, JSValue.isNonNullNonEmpty,
      JSValue.isOptionalString, getKeysParams, JSValue.orDefault, JSValue.getProp, List.find?]
  · intro h
    subst h
    simp [getKeysParams, JSValue.orDefault, JSValue.truthy, JSValue.getProp, List.find?]

/-- Witness for C1: `getKeys("active", undefined, 20)` on the fresh module. -/
theorem getKeys_query_witness :
    JSValue.isOptionalString (.str "active" : JSValue SafeInt) = true ∧
    ∃ q, sent (getKeys (.str "active") .undefined (.num ⟨20, by decide⟩))
            alwaysOk (World.init [] false)
          = [(World.init [] false : World SafeInt).api.build .GET "/admin/keys" .undefined q] ∧
      q.getProp "page" = some (JSValue.orDefault .undefined (.num ⟨1, by decide⟩)) ∧
      q.getProp "page_size"
        = some (JSValue.orDefault (.num ⟨20, by decide⟩) (.num ⟨50, by decide⟩)) ∧
      (JSValue.undefined = (.undefined : JSValue SafeInt) →
        q.getProp "page" = some (.num ⟨1, by decide⟩)) ∧
      (JSValue.undefined ≠ (.undefined : JSValue SafeInt) →
        q.getProp "page" = some .undefined) ∧
      (JSValue.num ⟨20, by decide⟩ = (.undefined : JSValue SafeInt) →
        q.getProp "page_size" = some (.num ⟨50, by decide⟩)) ∧
      (JSValue.num ⟨20, by decide⟩ ≠ (.undefined : JSValue SafeInt) →
        q.getProp "page_size" = some (.num ⟨20, by decide⟩)) ∧
      (q.hasProp "status" = true ↔
        JSValue.isNonNullNonEmpty (.str "active" : JSValue SafeInt) = true) ∧
      (JSValue.isNonNullNonEmpty (.str "active" : JSValue SafeInt) = true →
        q.getProp "status" = some (.str "active")) ∧
      ((.str "active" : JSValue SafeInt) = .undefined → q.getProp "status" = none) :=
  ⟨rfl, getKeys_query (.str "active") .undefined (.num ⟨20, by decide⟩) _ _ rfl⟩

/-- C3: for every identifier that has a textual form and every price and
description, `updatePricing(pricingId, pricePerRequest, description)` dispatches
one `PUT /admin/pricing/{pricingId}` whose body is exactly `{model_pattern: "",
price_per_request: pricePerRequest, description: description}`: the pattern is
the empty string whatever the arguments, the other two fields are the
arguments unchanged. -/
theorem updatePricing_request (pricingId pricePerRequest description : JSValue N)
    (net : Net N) (w : World N) (s : String) (h : pricingId.toStr = some s) :
    ∃ r, sent (updatePricing pricingId pricePerRequest description) net w = [r] ∧
      r.method = .PUT ∧
      r.url = "/admin/pricing/" ++ s ∧
      r.data = .obj [("model_pattern", .str ""), ("price_per_request", pricePerRequest),
                     ("description", description)] ∧
      r.data.getProp "model_pattern" = some (.str "") ∧
      r.data.getProp "price_per_request" = some pricePerRequest ∧
      r.data.getProp "description" = some description :=
  ⟨_, sent_of_eq (updatePricing_eq _ _ _ s h net w), rfl, rfl, rfl,
    by simp [AxiosInstance.build, JSValue.getProp, List.find?],
    by simp [AxiosInstance.build, JSValue.getProp, List.find?],
    by simp [AxiosInstance.build, JSValue.getProp, List.find?]⟩

/-- Witness for C3: `updatePricing(7, 3, "gpt")` on the fresh module. -/
theorem updatePricing_request_witness :
    (JSValue.num ⟨7, by decide⟩ : JSValue SafeInt).toStr = some "7" ∧
    ∃ r, sent (updatePricing (.num ⟨7, by decide⟩) (.num ⟨3, by decide⟩) (.str "gpt"))
          alwaysOk (World.init [] false) = [r] ∧
      r.method = .PUT ∧
      r.url = "/admin/pricing/" ++ "7" ∧
      r.data = .obj [("model_pattern", .str ""),
                     ("price_per_request", .num ⟨3, by decide⟩),
                     ("description", .str "gpt")] ∧
      r.data.getProp "model_pattern" = some (.str "") ∧
      r.data.getProp "price_per_request" = some (.num ⟨3, by decide⟩) ∧
      r.data.getProp "description" = some (.str "gpt") :=
  ⟨by decide, updatePricing_request _ _ _ _ _ "7" (by decide)⟩

/-- C4: each of the sixteen backend functions dispatches with the method and
path of its table row; an identifier argument enters the path as its textual
form after the fixed prefix (a string as itself, a number as the language
prints it), and `checkModelPrice` carries the query parameter `model`. -/
theorem methods_and_paths (net : Net N) (w : World N) :
    methodsAndPaths (sent getStats net w) = [(.GET, "/admin/stats")] ∧
    (∀ status page pageSize,
      methodsAndPaths (sent (getKeys status page pageSize) net w)
        = [(.GET, "/admin/keys")]) ∧
    (∀ key balance,
      methodsAndPaths (sent (addKey key balance) net w) = [(.POST, "/admin/keys")]) ∧
    (∀ (keyId : JSValue N) (s : String), keyId.toStr = some s →
      methodsAndPaths (sent (deleteKey keyId) net w)
        = [(.DELETE, "/admin/keys/" ++ s)]) ∧
    (∀ keys,
      methodsAndPaths (sent (importKeys keys) net w) = [(.POST, "/admin/keys/import")]) ∧
    methodsAndPaths (sent getPricing net w) = [(.GET, "/admin/pricing")] ∧
    (∀ modelPattern pricePerRequest description,
      methodsAndPaths (sent (addPricing modelPattern pricePerRequest description) net w)
        = [(.POST, "/admin/pricing")]) ∧
    (∀ (pricingId pricePerRequest description : JSValue N) (s : String),
      pricingId.toStr = some s →
      methodsAndPaths (sent (updatePricing pricingId pricePerRequest description) net w)
        = [(.PUT, "/admin/pricing/" ++ s)]) ∧
    (∀ (pricingId : JSValue N) (s : String), pricingId.toStr = some s →
      methodsAndPaths (sent (deletePricing pricingId) net w)
        = [(.DELETE, "/admin/pricing/" ++ s)]) ∧
    (∀ model,
      methodsAndPaths (sent (checkModelPrice model) net w)
        = [(.GET, "/admin/pricing/check")] ∧
      (sent (checkModelPrice model) net w).map Request.params
        = [.obj [("model", model)]]) ∧
    methodsAndPaths (sent getUpstreamModels net w) = [(.GET, "/admin/models")] ∧
    methodsAndPaths (sent deleteInvalidKeys net w)
      = [(.DELETE, "/admin/keys/invalid/batch")] ∧
    methodsAndPaths (sent getTokens net w) = [(.GET, "/admin/tokens")] ∧
    (∀ name,
      methodsAndPaths (sent (createToken name) net w) = [(.POST, "/admin/tokens")]) ∧
    (∀ (tokenId enabled : JSValue N) (s : String), tokenId.toStr = some s →
      methodsAndPaths (sent (toggleToken tokenId enabled) net w)
        = [(.PUT, "/admin/tokens/" ++ s ++ "/toggle")]) ∧
    (∀ (tokenId : JSValue N) (s : String), tokenId.toStr = some s →
      methodsAndPaths (sent (deleteToken tokenId) net w)
        = [(.DELETE, "/admin/tokens/" ++ s)]) ∧
    (∀ n : N, methodsAndPaths (sent (deleteKey (.num n)) net w)
      = [(.DELETE, "/admin/keys/" ++ JSNumber.toStr n)]) ∧
    methodsAndPaths (sent (deleteKey (.str "42")) net w) = [(.DELETE, "/admin/keys/42")] ∧
    methodsAndPaths (sent (toggleToken (.str "t-9") (.bool true)) net w)
      = [(.PUT, "/admin/tokens/t-9/toggle")] := by
  refine ⟨?_, ?_, ?_, ?_, ?_, ?_, ?_, ?_, ?_, ?_, ?_, ?_, ?_, ?_, ?_, ?_, ?_, ?_, ?_⟩
  · rw [sent_of_eq (getStats_eq net w)]; rfl
  · intro a b c; rw [sent_of_eq (getKeys_eq a b c net w)]; rfl
  · intro a b; rw [sent_of_eq (addKey_eq a b net w)]; rfl
  · intro a s h; rw [sent_of_eq (deleteKey_eq a s h net w)]; rfl
  · intro a; rw [sent_of_eq (importKeys_eq a net w)]; rfl
  · rw [sent_of_eq (getPricing_eq net w)]; rfl
  · intro a b c; rw [sent_of_eq (addPricing_eq a b c net w)]; rfl
  · intro a b c s h; rw [sent_of_eq (updatePricing_eq a b c s h net w)]; rfl
  · intro a s h; rw [sent_of_eq (deletePricing_eq a s h net w)]; rfl
  · intro a; rw [sent_of_eq (checkModelPrice_eq a net w)]; exact ⟨rfl, rfl⟩
  · rw [sent_of_eq (getUpstreamModels_eq net w)]; rfl
  · rw [sent_of_eq (deleteInvalidKeys_eq net w)]; rfl
  · rw [sent_of_eq (getTokens_eq net w)]; rfl
  · intro a; rw [sent_of_eq (createToken_eq a net w)]; rfl
  · intro a b s h; rw [sent_of_eq (toggleToken_eq a b s h net w)]; rfl
  · intro a s h; rw [sent_of_eq (deleteToken_eq a s h net w)]; rfl
  · intro n; rw [sent_of_eq (deleteKey_eq _ _ (toStr_num n) net w)]; rfl
  · rw [sent_of_eq (deleteKey_eq _ "42" (toStr_str _) net w)]
    have h : "/admin/keys/" ++ "42" = "/admin/keys/42" := by decide
    exact congrArg (fun u => [(Method.DELETE, u)]) h
  · rw [sent_of_eq (toggleToken_eq _ _ "t-9" (toStr_str _) net w)]
    have h : "/admin/tokens/" ++ "t-9" ++ "/toggle" = "/admin/tokens/t-9/toggle" := by decide
    exact congrArg (fun u => [(Method.PUT, u)]) h

/-- C5: for every token identifier that has a textual form,
`toggleToken(tokenId, enabled)` dispatches one `PUT` to
`/admin/tokens/{tokenId}/toggle` with body `null` and the single query
parameter `enabled` equal to the argument; the requests for `true` and `false`
agree in method, path, body, base URL and headers and differ only in the value
of `enabled`. -/
theorem toggleToken_request (tokenId : JSValue N) (net : Net N) (w : World N)
    (s : String) (h : tokenId.toStr = some s) :
    (∀ enabled : JSValue N,
      sent (toggleToken tokenId enabled) net w
        = [w.api.build .PUT ("/admin/tokens/" ++ s ++ "/toggle") .null
            (.obj [("enabled", enabled)])]) ∧
    (∀ b : Bool, ∃ r, sent (toggleToken tokenId (.bool b)) net w = [r] ∧
      r.method = .PUT ∧ r.url = "/admin/tokens/" ++ s ++ "/toggle" ∧
      r.data = .null ∧ r.params = .obj [("enabled", .bool b)]) ∧
    (∃ rt rf, sent (toggleToken tokenId (.bool true)) net w = [rt] ∧
      sent (toggleToken tokenId (.bool false)) net w = [rf] ∧
      rt.method = rf.method ∧ rt.url = rf.url ∧ rt.data = rf.data ∧
      rt.baseURL = rf.baseURL ∧ rt.headers = rf.headers ∧
      rt.params = .obj [("enabled", .bool true)] ∧
      rf.params = .obj [("enabled", .bool false)] ∧ rt.params ≠ rf.params) := by
  refine ⟨fun enabled => sent_of_eq (toggleToken_eq _ _ s h net w), ?_, ?_⟩
  · intro b
    exact ⟨_, sent_of_eq (toggleToken_eq _ _ s h net w), rfl, rfl, rfl, rfl⟩
  · refine ⟨_, _, sent_of_eq (toggleToken_eq _ _ s h net w),
      sent_of_eq (toggleToken_eq _ _ s h net w), rfl, rfl, rfl, rfl, rfl, rfl, rfl, ?_⟩
    simp [AxiosInstance.build]

/-- Witness for C5: `toggleToken(12, ·)` on the fresh module. -/
theorem toggleToken_request_witness :
    (JSValue.num ⟨12, by decide⟩ : JSValue SafeInt).toStr = some "12" ∧
    (∀ enabled : JSValue SafeInt,
      sent (toggleToken (.num ⟨12, by decide⟩) enabled) alwaysOk (World.init [] false)
        = [(World.init [] false : World SafeInt).api.build .PUT
            ("/admin/tokens/" ++ "12" ++ "/toggle") .null
            (.obj [("enabled", enabled)])]) :=
  ⟨by decide, (toggleToken_request _ _ _ "12" (by decide)).1⟩

/-- C6: each of the four delete functions dispatches exactly one request, a
`DELETE` to its documented path, with no body and no query parameters (both
`undefined`); the identifier enters the path as its textual form. -/
theorem delete_requests (net : Net N) (w : World N) :
    (∀ (keyId : JSValue N) (s : String), keyId.toStr = some s →
      sent (deleteKey keyId) net w
        = [w.api.build .DELETE ("/admin/keys/" ++ s) .undefined .undefined]) ∧
    (∀ (pricingId : JSValue N) (s : String), pricingId.toStr = some s →
      sent (deletePricing pricingId) net w
        = [w.api.build .DELETE ("/admin/pricing/" ++ s) .undefined .undefined]) ∧
    sent deleteInvalidKeys net w
      = [w.api.build .DELETE "/admin/keys/invalid/batch" .undefined .undefined] ∧
    (∀ (tokenId : JSValue N) (s : String), tokenId.toStr = some s →
      sent (deleteToken tokenId) net w
        = [w.api.build .DELETE ("/admin/tokens/" ++ s) .undefined .undefined]) ∧
    (∀ (url : String),
      (w.api.build .DELETE url (.undefined : JSValue N) .undefined).method = .DELETE ∧
      (w.api.build .DELETE url (.undefined : JSValue N) .undefined).url = url ∧
      (w.api.build .DELETE url (.undefined : JSValue N) .undefined).data = .undefined ∧
      (w.api.build .DELETE url (.undefined : JSValue N) .undefined).params = .undefined) ∧
    (∀ id : String,
      sent (deleteKey (.str id)) net w
        = [w.api.build .DELETE ("/admin/keys/" ++ id) .undefined .undefined] ∧
      sent (deletePricing (.str id)) net w
        = [w.api.build .DELETE ("/admin/pricing/" ++ id) .undefined .undefined] ∧
      sent (deleteToken (.str id)) net w
        = [w.api.build .DELETE ("/admin/tokens/" ++ id) .undefined .undefined]) ∧
    (∀ n : N,
      sent (deleteKey (.num n)) net w
        = [w.api.build .DELETE ("/admin/keys/" ++ JSNumber.toStr n) .undefined .undefined] ∧
      sent (deletePricing (.num n)) net w
        = [w.api.build .DELETE ("/admin/pricing/" ++ JSNumber.toStr n)
            .undefined .undefined] ∧
      sent (deleteToken (.num n)) net w
        = [w.api.build .DELETE ("/admin/tokens/" ++ JSNumber.toStr n)
            .undefined .undefined]) :=
  ⟨fun _ s h => sent_of_eq (deleteKey_eq _ s h net w),
   fun _ s h => sent_of_eq (deletePricing_eq _ s h net w),
   sent_of_eq (deleteInvalidKeys_eq net w),
   fun _ s h => sent_of_eq (deleteToken_eq _ s h net w),
   fun _ => ⟨rfl, rfl, rfl, rfl⟩,
   fun id => ⟨sent_of_eq (deleteKey_eq _ id (toStr_str id) net w),
     sent_of_eq (deletePricing_eq _ id (toStr_str id) net w),
     sent_of_eq (deleteToken_eq _ id (toStr_str id) net w)⟩,
   fun n => ⟨sent_of_eq (deleteKey_eq _ _ (toStr_num n) net w),
     sent_of_eq (deletePricing_eq _ _ (toStr_num n) net w),
     sent_of_eq (deleteToken_eq _ _ (toStr_num n) net w)⟩⟩

/-- C10: the creating functions pass their arguments through unchanged under
fixed field names: `addKey` sends `{key, balance}`, `importKeys` sends the
sequence wrapped as `{keys}`, `addPricing` sends `{model_pattern,
price_per_request, description}`, `createToken` sends `{name}`; hence
`addPricing("", p, d)` sends the body that `updatePricing(id, p, d)` sends. -/
theorem creating_bodies (net : Net N) (w : World N) :
    (∀ key balance,
      bodies (sent (addKey key balance) net w)
        = [.obj [("key", key), ("balance", balance)]]) ∧
    (∀ keys,
      bodies (sent (importKeys keys) net w) = [.obj [("keys", keys)]]) ∧
    (∀ items : List (JSValue N),
      bodies (sent (importKeys (.arr items)) net w) = [.obj [("keys", .arr items)]] ∧
      bodies (sent (importKeys (.arr items)) net w) ≠ [.arr items]) ∧
    (∀ modelPattern pricePerRequest description,
      bodies (sent (addPricing modelPattern pricePerRequest description) net w)
        = [.obj [("model_pattern", modelPattern), ("price_per_request", pricePerRequest),
                 ("description", description)]]) ∧
    (∀ name,
      bodies (sent (createToken name) net w) = [.obj [("name", name)]]) ∧
    (∀ (pricingId pricePerRequest description : JSValue N) (s : String),
      pricingId.toStr = some s →
      bodies (sent (addPricing (.str "") pricePerRequest description) net w)
        = bodies (sent (updatePricing pricingId pricePerRequest description) net w)) ∧
    (∀ (pricingId pricePerRequest description b : JSValue N),
      b ∈ bodies (sent (updatePricing pricingId pricePerRequest description) net w) →
      bodies (sent (addPricing (.str "") pricePerRequest description) net w) = [b]) := by
  refine ⟨?_, ?_, ?_, ?_, ?_, ?_, ?_⟩
  · intro a b; rw [sent_of_eq (addKey_eq a b net w)]; rfl
  · intro a; rw [sent_of_eq (importKeys_eq a net w)]; rfl
  · intro a; rw [sent_of_eq (importKeys_eq _ net w)]
    exact ⟨rfl, by simp [bodies, AxiosInstance.build]⟩
  · intro a b c; rw [sent_of_eq (addPricing_eq a b c net w)]; rfl
  · intro a; rw [sent_of_eq (createToken_eq a net w)]; rfl
  · intro a b c s h
    rw [sent_of_eq (addPricing_eq _ b c net w), sent_of_eq (updatePricing_eq a b c s h net w)]
    rfl
  · intro a b c body hb
    rw [sent_of_eq (addPricing_eq _ b c net w)]
    cases h : a.toStr with
    | none =>
      rw [sent_of_throws (updatePricing_throws a b c h net w)] at hb
      simp [bodies] at hb
    | some s =>
      rw [sent_of_eq (updatePricing_eq a b c s h net w)] at hb
      simp only [bodies, List.map_cons, List.map_nil, List.mem_singleton] at hb
      rw [hb]; rfl

end Shapes

/-! ## Results, failures and effects -/

section Effects

variable {N : Type} [JSNumber N]

/-- C7: a backend function returns exactly the decoded body the transport
answered its request with, whatever the function's arguments;
`addKey("sk-test", 100)` answered with `{id: 7, key: "sk-test", balance: 100}`
returns that object, and `getPricing()` answered with the empty list returns
`[]`, fulfilled. The request is dispatched whenever the identifier the
function splices into its path (if it has one) has a textual form. -/
theorem response_passthrough (o : Op N) (net : Net N) (w : World N) :
    (∀ r response, sent o.run net w = [r] → net w.log r = .ok response →
      outcome o.run net w = .ok response.data) ∧
    (o.converts = true → ∃ r, sent o.run net w = [r] ∧
      ∀ response, net w.log r = .ok response →
        outcome o.run net w = .ok response.data) ∧
    (o.converts = true → ∀ (status : Nat) (d : JSValue N),
      outcome o.run (fun _ _ => .ok ⟨status, d⟩) w = .ok d) ∧
    (∀ id balance : N,
      outcome (addKey (.str "sk-test") (.num balance))
          (fun _ _ => .ok ⟨200, .obj [("id", .num id), ("key", .str "sk-test"),
                                     ("balance", .num balance)]⟩) w
        = .ok (.obj [("id", .num id), ("key", .str "sk-test"),
                     ("balance", .num balance)])) ∧
    outcome (getPricing : Async N (JSValue N)) (fun _ _ => .ok ⟨200, .arr []⟩) w
      = .ok (.arr []) := by
  refine ⟨?_, ?_, ?_, ?_, ?_⟩
  · intro r response hsent hr
    cases hc : o.converts
    · rw [sent_of_throws (o.run_throws hc net w)] at hsent
      exact absurd hsent (by simp)
    · obtain ⟨method, url, data, params, h⟩ := o.run_eq hc
      rw [sent_of_eq (h net w)] at hsent
      have hr2 : net w.log (w.api.build method url data params) = .ok response := by
        rw [List.cons.inj hsent |>.1]; exact hr
      simp only [outcome, h, roundTrip_outcome, hr2]
  · intro hc
    obtain ⟨method, url, data, params, h⟩ := o.run_eq hc
    refine ⟨_, sent_of_eq (h net w), ?_⟩
    intro response hr
    simp only [outcome, h, roundTrip_outcome, hr]
  · intro hc status d
    obtain ⟨method, url, data, params, h⟩ := o.run_eq hc
    simp only [outcome, h, roundTrip_outcome]
  · intro id balance
    simp only [outcome, addKey_eq, roundTrip_outcome]
  · simp only [outcome, getPricing_eq, roundTrip_outcome]

/-- C8: a backend function that reaches the transport (it does whenever the
identifier spliced into its path has a textual form) rejects exactly when its
one transport call rejects, and then with the very same error, so an
HTTP-status error still exposes its status 401; the log grows by that single
request only, so nothing is retried, and a failing transport never yields a
fulfilled result. -/
theorem error_propagation (o : Op N) (net : Net N) (w : World N) :
    ((sent o.run net w).length ≤ 1 ∧
      (o.run net w).2.log = w.log ++ sent o.run net w) ∧
    (o.converts = true → ∃ r, (o.run net w).2.log = w.log ++ [r] ∧
      (∀ e, outcome o.run net w = .error (.transport e) ↔ net w.log r = .error e) ∧
      ((∃ e, outcome o.run net w = .error e) ↔ ∃ e, net w.log r = .error e) ∧
      (∀ e, net w.log r = .error e → ∀ d, outcome o.run net w ≠ .ok d) ∧
      (∀ response : Response N, response.status = 401 →
        net w.log r = .error (.httpStatus response) →
        outcome o.run net w = .error (.transport (.httpStatus response)) ∧
        (TransportError.httpStatus response).status = some 401)) ∧
    (∀ r, sent o.run net w = [r] →
      ∀ e, outcome o.run net w = .error (.transport e) ↔ net w.log r = .error e) ∧
    (o.converts = true → ∀ (e : TransportError N),
      outcome o.run (fun _ _ => .error e) w = .error (.transport e) ∧
      (sent o.run (fun _ _ => .error e) w).length = 1) ∧
    (∀ (e : TransportError N) (d : JSValue N),
      outcome o.run (fun _ _ => .error e) w ≠ .ok d) ∧
    (o.converts = true → ∀ d : JSValue N,
      outcome o.run (fun _ _ => .error (.httpStatus ⟨401, d⟩)) w
        = .error (.transport (.httpStatus ⟨401, d⟩)) ∧
      (TransportError.httpStatus (⟨401, d⟩ : Response N)).status = some 401) := by
  have hiff : ∀ (method : Method) (url : String) (data params : JSValue N)
      (e : TransportError N),
      (roundTrip method url data params net w).1 = .error (.transport e)
        ↔ net w.log (w.api.build method url data params) = .error e := by
    intro method url data params e
    rw [roundTrip_outcome]
    cases net w.log (w.api.build method url data params) <;> simp
  refine ⟨?_, ?_, ?_, ?_, ?_, ?_⟩
  · cases hc : o.converts
    · rw [sent_of_throws (o.run_throws hc net w), o.run_throws hc]
      simp
    · obtain ⟨method, url, data, params, h⟩ := o.run_eq hc
      rw [sent_of_eq (h net w), h]
      exact ⟨by simp, rfl⟩
  · intro hc
    obtain ⟨method, url, data, params, h⟩ := o.run_eq hc
    refine ⟨w.api.build method url data params, by rw [h]; rfl, ?_, ?_, ?_, ?_⟩
    · intro e
      simp only [outcome, h]
      exact hiff method url data params e
    · simp only [outcome, h, roundTrip_outcome]
      cases net w.log (w.api.build method url data params) <;> simp
    · intro e he d
      simp only [outcome, h, roundTrip_outcome, he]
      simp
    · intro response hs he
      refine ⟨?_, ?_⟩
      · simp only [outcome, h, roundTrip_outcome, he]
      · simp [TransportError.status, hs]
  · intro r hsent e
    cases hc : o.converts
    · rw [sent_of_throws (o.run_throws hc net w)] at hsent
      exact absurd hsent (by simp)
    · obtain ⟨method, url, data, params, h⟩ := o.run_eq hc
      rw [sent_of_eq (h net w)] at hsent
      rw [← (List.cons.inj hsent).1]
      simp only [outcome, h]
      exact hiff method url data params e
  · intro hc e
    obtain ⟨method, url, data, params, h⟩ := o.run_eq hc
    refine ⟨?_, ?_⟩
    · simp only [outcome, h, roundTrip_outcome]
    · rw [sent_of_eq (h _ w)]; rfl
  · intro e d
    cases hc : o.converts
    · simp [outcome, o.run_throws hc]
    · obtain ⟨method, url, data, params, h⟩ := o.run_eq hc
      simp [outcome, h, roundTrip_outcome]
  · intro hc d
    obtain ⟨method, url, data, params, h⟩ := o.run_eq hc
    refine ⟨?_, rfl⟩
    simp only [outcome, h, roundTrip_outcome]

/-- Counterexample to C9 as stated: with the object `{"toString": "x"}` as the
key identifier, `deleteKey` rejects locally and dispatches no request at all,
and with it as the token `setAuthToken` throws instead of fulfilling. -/
theorem request_count_counterexample :
    sent (deleteKey unprintable) alwaysOk (World.init [] false) = [] ∧
    (sent (deleteKey unprintable) alwaysOk (World.init [] false)).length ≠ 1 ∧
    outcome (deleteKey unprintable) alwaysOk (World.init [] false) = .error .typeError ∧
    outcome (setAuthToken unprintable) alwaysOk (World.init [] false) = .error .typeError ∧
    outcome (setAuthToken unprintable) alwaysOk (World.init [] false) ≠ .ok .undefined := by
  have h : unprintable.toStr = none := by decide
  refine ⟨?_, ?_, ?_, ?_, ?_⟩
  · exact sent_of_throws (deleteKey_throws _ h _ _)
  · rw [sent_of_throws (deleteKey_throws _ h _ _)]; decide
  · simp only [outcome, deleteKey_throws _ h]
  · simp only [outcome, setAuthToken_throws _ h]
  · simp [outcome, setAuthToken_throws _ h]

/-- C9, amended: a backend function dispatches exactly one request per call
whenever the identifier it splices into its path has a textual form, so
always for the eleven functions without one, whatever their input (also
`page` and `pageSize` below 1 and an empty key list, sent as given); when the
identifier has no textual form the call rejects with a `TypeError` and
dispatches nothing. No backend function changes the instance. `setAuthToken`
dispatches nothing and changes at most the `Authorization` entry of the
common default headers: base URL, the instance's own headers with
`Content-Type: application/json`, and every other common header stay as they
were. For a token with a textual form, every string and the empty one
included, it fulfils and sets that entry; for a token without one it throws
and changes nothing. -/
theorem request_count_and_frame (net : Net N) (w : World N) :
    (∀ o : Op N, (sent o.run net w).length ≤ 1 ∧ (o.run net w).2.api = w.api) ∧
    (∀ o : Op N, o.converts = true →
      (∃ r, (o.run net w).2.log = w.log ++ [r]) ∧ (sent o.run net w).length = 1) ∧
    (∀ o : Op N, o.pathArg = none →
      (∃ r, (o.run net w).2.log = w.log ++ [r]) ∧ (sent o.run net w).length = 1) ∧
    (∀ o : Op N, o.converts = false →
      sent o.run net w = [] ∧ outcome o.run net w = .error .typeError ∧
      (o.run net w).2 = w) ∧
    (∀ page pageSize : N,
      sent (getKeys .null (.num page) (.num pageSize)) net w
        = [w.api.build .GET "/admin/keys" .undefined
            (.obj [("page", .num page), ("page_size", .num pageSize)])]) ∧
    sent (importKeys (.arr [])) net w
      = [w.api.build .POST "/admin/keys/import" (.obj [("keys", .arr [])]) .undefined] ∧
    (∀ token : JSValue N,
      sent (setAuthToken token) net w = [] ∧
      (setAuthToken token net w).2.log = w.log ∧
      (setAuthToken token net w).2.api.baseURL = w.api.baseURL ∧
      (setAuthToken token net w).2.api.headers = w.api.headers ∧
      (∀ name, name ≠ "Authorization" →
        (setAuthToken token net w).2.api.common.lookup name = w.api.common.lookup name)) ∧
    (∀ (token : JSValue N) (s : String), token.toStr = some s →
      outcome (setAuthToken token) net w = .ok .undefined ∧
      (setAuthToken token net w).2.api.common.lookup "Authorization"
        = some ("Bearer " ++ s)) ∧
    (∀ token : JSValue N, token.toStr = none →
      outcome (setAuthToken token) net w = .error .typeError ∧
      (setAuthToken token net w).2 = w) ∧
    (∀ t : String,
      outcome (setAuthToken (.str t)) net w = .ok .undefined ∧
      (setAuthToken (.str t) net w).2.api.common.lookup "Authorization"
        = some ("Bearer " ++ t)) ∧
    (outcome (setAuthToken (.str "")) net w = .ok .undefined ∧
      (setAuthToken (.str "") net w).2.api.common.lookup "Authorization"
        = some "Bearer ") ∧
    (∀ (lib : Headers) (prod : Bool) (token : JSValue N),
      (setAuthToken token net (World.init lib prod)).2.api.baseURL = "" ∧
      (setAuthToken token net (World.init lib prod)).2.api.headers.lookup "Content-Type"
        = some "application/json") := by
  have hone : ∀ o : Op N, o.converts = true →
      (∃ r, (o.run net w).2.log = w.log ++ [r]) ∧ (sent o.run net w).length = 1 := by
    intro o hc
    obtain ⟨method, url, data, params, h⟩ := o.run_eq hc
    exact ⟨⟨_, by rw [h]; rfl⟩, by rw [sent_of_eq (h net w)]; rfl⟩
  have hset : ∀ (token : JSValue N) (s : String), token.toStr = some s →
      outcome (setAuthToken token) net w = .ok .undefined ∧
      (setAuthToken token net w).2.api.common.lookup "Authorization"
        = some ("Bearer " ++ s) := by
    intro token s h
    refine ⟨by simp only [outcome, setAuthToken_eq token s h], ?_⟩
    rw [setAuthToken_eq token s h]
    simp [lookup_setHeader]
  refine ⟨?_, hone, ?_, ?_, ?_, ?_, ?_, hset, ?_, ?_, ?_, ?_⟩
  · intro o
    refine ⟨?_, o.run_api net w⟩
    cases hc : o.converts
    · rw [sent_of_throws (o.run_throws hc net w)]; simp
    · rw [(hone o hc).2]
  · intro o hp
    exact hone o (by simp [Op.converts, hp])
  · intro o hc
    refine ⟨sent_of_throws (o.run_throws hc net w), ?_, ?_⟩
    · simp only [outcome, o.run_throws hc]
    · rw [o.run_throws hc]
  · intro page pageSize
    exact sent_of_eq (getKeys_eq _ _ _ net w)
  · exact sent_of_eq (importKeys_eq _ net w)
  · intro token
    have hh := setAuthToken_headers token net w
    refine ⟨by simp [sent, hh.2.2], hh.2.2, hh.2.1, hh.1, ?_⟩
    intro name hname
    cases h : token.toStr with
    | none => rw [setAuthToken_throws token h]
    | some s =>
      rw [setAuthToken_eq token s h]
      simp [lookup_setHeader, hname]
  · intro token h
    refine ⟨by simp only [outcome, setAuthToken_throws token h], ?_⟩
    rw [setAuthToken_throws token h]
  · intro t
    exact hset (.str t) t (toStr_str t)
  · have := hset (.str "") "" (toStr_str "")
    refine ⟨this.1, ?_⟩
    rw [this.2]; rfl
  · intro lib prod token
    have hh := setAuthToken_headers token net (World.init lib prod)
    refine ⟨?_, ?_⟩
    · rw [hh.2.1]; cases prod <;> rfl
    · rw [hh.1]; simp [World.init, api, lookup_cons_eq]

/-- C2: on the module as loaded and after any calls, once `setAuthToken(t)` has
run for a token with textual form `s`, every request dispatched by the backend
functions that follow carries `Authorization: Bearer s`; after a second
`setAuthToken(t2)` every request dispatched from then on carries the text of
`t2`, while the requests dispatched before the second call stay in the log as
they were built, with `Bearer s`. Between two `setAuthToken` calls the
instance itself does not change, and its common `Authorization` default is
the last token set. -/
theorem bearer_token (lib : Headers) (prod : Bool) (net : Net N) (before : List (Call N))
    (mid after : List (Op N)) (t t2 : JSValue N) (s s2 : String)
    (ht : t.toStr = some s) (ht2 : t2.toStr = some s2) :
    let w1 := runAll net (before ++ [.setAuthToken t]) (World.init lib prod)
    let w2 := runAll net (mid.map Call.op) w1
    let w3 := runAll net [.setAuthToken t2] w2
    let w4 := runAll net (after.map Call.op) w3
    ((w2.log.drop w1.log.length).length ≤ mid.length ∧
      ((∀ o ∈ mid, o.converts = true) →
        (w2.log.drop w1.log.length).length = mid.length)) ∧
    (∀ r ∈ w2.log.drop w1.log.length,
      r.header "Authorization" = some ("Bearer " ++ s)) ∧
    w3.log = w2.log ∧
    ((w4.log.drop w3.log.length).length ≤ after.length ∧
      ((∀ o ∈ after, o.converts = true) →
        (w4.log.drop w3.log.length).length = after.length)) ∧
    (∀ r ∈ w4.log.drop w3.log.length,
      r.header "Authorization" = some ("Bearer " ++ s2)) ∧
    w4.log.take w2.log.length = w2.log ∧
    (∀ r ∈ (w4.log.take w2.log.length).drop w1.log.length,
      r.header "Authorization" = some ("Bearer " ++ s)) ∧
    (w2.api = w1.api ∧
      w1.api.common.lookup "Authorization" = some ("Bearer " ++ s)) ∧
    (w4.api = w3.api ∧
      w3.api.common.lookup "Authorization" = some ("Bearer " ++ s2)) := by
  intro w1 w2 w3 w4
  have hinit : ∀ cs, (runAll net cs (World.init lib prod : World N)).api.headers
      = [("Content-Type", "application/json")] := fun cs => by
    rw [runAll_headers]; rfl
  have hw1 : w1.api.headers = [("Content-Type", "application/json")] := hinit _
  have hcommon1 : w1.api.common
      = setHeader (runAll net before (World.init lib prod)).api.common "Authorization"
          ("Bearer " ++ s) := by
    show (runAll net (before ++ [Call.setAuthToken t]) (World.init lib prod)).api.common = _
    rw [runAll_append]
    show (setAuthToken t net _).2.api.common = _
    rw [setAuthToken_eq t s ht]
  obtain ⟨hapi2, extra2, hlog2, hle2, hlen2, hhdr2⟩ := runAll_ops net mid w1
  have hw3eq : w3 = (setAuthToken t2 net w2).2 := rfl
  have hw3log : w3.log = w2.log := by
    rw [hw3eq, setAuthToken_eq t2 s2 ht2]
  have hw3 : w3.api.headers = [("Content-Type", "application/json")] := by
    show (runAll net [Call.setAuthToken t2] w2).api.headers = _
    rw [runAll_headers]
    show (runAll net (mid.map Call.op) w1).api.headers = _
    rw [runAll_headers]; exact hw1
  have hcommon3 : w3.api.common = setHeader w2.api.common "Authorization"
      ("Bearer " ++ s2) := by
    rw [hw3eq, setAuthToken_eq t2 s2 ht2]
  obtain ⟨hapi4, extra4, hlog4, hle4, hlen4, hhdr4⟩ := runAll_ops net after w3
  have hdrop2 : w2.log.drop w1.log.length = extra2 := by
    show (runAll net (mid.map Call.op) w1).log.drop w1.log.length = _
    rw [hlog2]; simp
  have hdrop4 : w4.log.drop w3.log.length = extra4 := by
    show (runAll net (after.map Call.op) w3).log.drop w3.log.length = _
    rw [hlog4]; simp
  have htake : w4.log.take w2.log.length = w2.log := by
    show (runAll net (after.map Call.op) w3).log.take w2.log.length = _
    rw [hlog4, hw3log]; simp
  have hbearer1 : ∀ r ∈ extra2, r.header "Authorization" = some ("Bearer " ++ s) := by
    intro r hr
    unfold Request.header
    rw [hhdr2 r hr, hw1, hcommon1]
    exact authorization_of_merge _ _
  refine ⟨?_, ?_, hw3log, ?_, ?_, htake, ?_, ⟨hapi2, ?_⟩, ⟨hapi4, ?_⟩⟩
  · rw [hdrop2]; exact ⟨hle2, hlen2⟩
  · rw [hdrop2]; exact hbearer1
  · rw [hdrop4]; exact ⟨hle4, hlen4⟩
  · rw [hdrop4]
    intro r hr
    unfold Request.header
    rw [hhdr4 r hr, hw3, hcommon3]
    exact authorization_of_merge _ _
  · rw [htake, hdrop2]; exact hbearer1
  · rw [hcommon1]; simp [lookup_setHeader]
  · rw [hcommon3]; simp [lookup_setHeader]

/-- Witness for C2: on the fresh module, `setAuthToken("abc")`, then
`getStats()` and `deleteKey("k1")`, then `setAuthToken("xyz")` and
`getPricing()`: the three requests carry `Bearer abc`, `Bearer abc` and
`Bearer xyz`. -/
theorem bearer_token_witness :
    (JSValue.str "abc" : JSValue SafeInt).toStr = some "abc" ∧
    (JSValue.str "xyz" : JSValue SafeInt).toStr = some "xyz" ∧
    (∀ r ∈ (runAll alwaysOk ([Op.getStats, Op.deleteKey (.str "k1")].map Call.op)
          (runAll alwaysOk ([] ++ [.setAuthToken (.str "abc")])
            (World.init [] false))).log.drop
        (runAll alwaysOk ([] ++ [.setAuthToken (.str "abc")])
          (World.init [] false)).log.length,
      r.header "Authorization" = some ("Bearer " ++ "abc")) ∧
    (runAll alwaysOk
        [.setAuthToken (.str "abc"), .op .getStats, .op (.deleteKey (.str "k1")),
         .setAuthToken (.str "xyz"), .op .getPricing]
        (World.init [] false)).log.map (fun r => r.header "Authorization")
      = [some "Bearer abc", some "Bearer abc", some "Bearer xyz"] :=
  ⟨by decide, by decide,
    (bearer_token [] false alwaysOk [] [Op.getStats, Op.deleteKey (.str "k1")]
      [Op.getPricing] (.str "abc") (.str "xyz") "abc" "xyz" (by decide) (by decide)).2.1,
    by decide⟩

end Effects

end ApiClient
